import Mathlib

/-
  Shallow embedding of the dashboard-rbg server core.

  Sources embedded:
  - src/shared/schema.ts          (entity shapes and the zod insert schemas)
  - src/server/routes.ts          (route handlers and getUserByFirebaseUid,
                                   plus the DatabaseStorage class of the
                                   relational storage module concatenated in
                                   the same file)

  Modelling conventions:
  - Timestamps are Nat (the server clock is passed to each handler as `now`;
    the code calls `new Date()` / column defaults `now()`).
  - A numeric path parameter is `Option Nat`: `none` models the case where
    JavaScript `parseInt` returned NaN.
  - A JSON body is a structure of `Option` fields: `none` is an absent key.
    For nullable columns a present key carries `Option String` so that an
    explicit JSON `null` is `some none`.
  - Every call into the storage object is logged in an operation trace so
    that "before touching storage" claims are observable.
  - `res.status(..).json(..)` double sends (the helper responds and the
    caller responds again) are modelled first-response-wins, which is the
    effective Express behaviour once headers are sent.
-/

namespace RBG

/-- users table row (src/shared/schema.ts, `users`). -/
structure User where
  id : Nat
  uid : String
  email : String
  displayName : Option String
  photoURL : Option String
  createdAt : Nat
  updatedAt : Nat
deriving DecidableEq

/-- companies table row (src/shared/schema.ts, `companies`). -/
structure Company where
  id : Nat
  name : String
  description : String
  cnpj : Option String
  address : Option String
  phone : Option String
  website : Option String
  ownerId : Nat
  createdAt : Nat
  updatedAt : Nat
deriving DecidableEq

/-- services table row (src/shared/schema.ts, `services`). -/
structure Service where
  id : Nat
  name : String
  description : String
  price : Option String
  workingHours : Option String
  companyId : Nat
  createdAt : Nat
  updatedAt : Nat
deriving DecidableEq

/-- service_images table row (src/shared/schema.ts, `serviceImages`). -/
structure ServiceImage where
  id : Nat
  url : String
  serviceId : Nat
  createdAt : Nat
deriving DecidableEq

/-- job_offers table row (src/shared/schema.ts, `jobOffers`). -/
structure JobOffer where
  id : Nat
  title : String
  description : String
  employmentType : String
  salaryRange : Option String
  requirements : Option String
  contactEmail : Option String
  contactLink : Option String
  companyId : Nat
  createdAt : Nat
  updatedAt : Nat
deriving DecidableEq

/-- The relational database state behind DatabaseStorage: one list per table
plus the serial-id sequences. -/
structure Storage where
  users : List User
  companies : List Company
  services : List Service
  serviceImages : List ServiceImage
  jobOffers : List JobOffer
  nextUserId : Nat
  nextCompanyId : Nat
  nextServiceId : Nat
  nextImageId : Nat
  nextJobOfferId : Nat
deriving DecidableEq

/-- `InsertUser` (insertUserSchema output: uid, email, displayName, photoURL). -/
structure InsertUser where
  uid : String
  email : String
  displayName : Option String
  photoURL : Option String
deriving DecidableEq

/-- `InsertCompany` (insertCompanySchema output: companies columns minus
id/createdAt/updatedAt; ownerId is part of the schema). -/
structure InsertCompany where
  name : String
  description : String
  cnpj : Option String
  address : Option String
  phone : Option String
  website : Option String
  ownerId : Nat
deriving DecidableEq

/-- `InsertService` (insertServiceSchema output). -/
structure InsertService where
  name : String
  description : String
  price : Option String
  workingHours : Option String
  companyId : Nat
deriving DecidableEq

/-- `InsertServiceImage` (insertServiceImageSchema output). -/
structure InsertServiceImage where
  url : String
  serviceId : Nat
deriving DecidableEq

/-- `InsertJobOffer` (insertJobOfferSchema output). -/
structure InsertJobOffer where
  title : String
  description : String
  employmentType : String
  salaryRange : Option String
  requirements : Option String
  contactEmail : Option String
  contactLink : Option String
  companyId : Nat
deriving DecidableEq

/-- Output of `insertCompanySchema.partial().safeParse`: every field optional. -/
structure CompanyPatch where
  name : Option String
  description : Option String
  cnpj : Option (Option String)
  address : Option (Option String)
  phone : Option (Option String)
  website : Option (Option String)
  ownerId : Option Nat
deriving DecidableEq

/-- Output of `insertServiceSchema.partial().safeParse`. -/
structure ServicePatch where
  name : Option String
  description : Option String
  price : Option (Option String)
  workingHours : Option (Option String)
  companyId : Option Nat
deriving DecidableEq

/-- Output of `insertJobOfferSchema.partial().safeParse`. -/
structure JobOfferPatch where
  title : Option String
  description : Option String
  employmentType : Option String
  salaryRange : Option (Option String)
  requirements : Option (Option String)
  contactEmail : Option (Option String)
  contactLink : Option (Option String)
  companyId : Option Nat
deriving DecidableEq

namespace DB

/-- DatabaseStorage.getUserByUid: select from users where uid = uid, first row. -/
def getUserByUid (st : Storage) (uid : String) : Option User :=
  st.users.find? (fun u => u.uid == uid)

/-- DatabaseStorage.createUser: insert with serial id and defaulted timestamps. -/
def createUser (st : Storage) (d : InsertUser) (now : Nat) : User × Storage :=
  let u : User :=
    { id := st.nextUserId, uid := d.uid, email := d.email,
      displayName := d.displayName, photoURL := d.photoURL,
      createdAt := now, updatedAt := now }
  (u, { st with users := st.users ++ [u], nextUserId := st.nextUserId + 1 })

/-- DatabaseStorage.getCompany: select from companies where id = id, first row. -/
def getCompany (st : Storage) (id : Nat) : Option Company :=
  st.companies.find? (fun c => c.id == id)

/-- DatabaseStorage.getUserCompanies: select from companies where ownerId = userId. -/
def getUserCompanies (st : Storage) (userId : Nat) : List Company :=
  st.companies.filter (fun c => c.ownerId == userId)

/-- DatabaseStorage.createCompany: insert with serial id and defaulted timestamps. -/
def createCompany (st : Storage) (d : InsertCompany) (now : Nat) : Company × Storage :=
  let c : Company :=
    { id := st.nextCompanyId, name := d.name, description := d.description,
      cnpj := d.cnpj, address := d.address, phone := d.phone,
      website := d.website, ownerId := d.ownerId,
      createdAt := now, updatedAt := now }
  (c, { st with companies := st.companies ++ [c], nextCompanyId := st.nextCompanyId + 1 })

/-- `update .. set({...patch, updatedAt: new Date()})` applied to one company
row: provided fields overwrite, absent fields are skipped by the ORM. -/
def applyCompanyPatch (p : CompanyPatch) (c : Company) (now : Nat) : Company :=
  { c with
    name := p.name.getD c.name
    description := p.description.getD c.description
    cnpj := p.cnpj.getD c.cnpj
    address := p.address.getD c.address
    phone := p.phone.getD c.phone
    website := p.website.getD c.website
    ownerId := p.ownerId.getD c.ownerId
    updatedAt := now }

/-- DatabaseStorage.updateCompany: update rows where id = id, return the
updated row (undefined when no row matched). -/
def updateCompany (st : Storage) (id : Nat) (p : CompanyPatch) (now : Nat) :
    Option Company × Storage :=
  ((getCompany st id).map (fun c => applyCompanyPatch p c now),
   { st with companies :=
      st.companies.map (fun c => if c.id = id then applyCompanyPatch p c now else c) })

/-- DatabaseStorage.getService. -/
def getService (st : Storage) (id : Nat) : Option Service :=
  st.services.find? (fun s => s.id == id)

/-- DatabaseStorage.getCompanyServices. -/
def getCompanyServices (st : Storage) (companyId : Nat) : List Service :=
  st.services.filter (fun s => s.companyId == companyId)

/-- DatabaseStorage.createService. -/
def createService (st : Storage) (d : InsertService) (now : Nat) : Service × Storage :=
  let s : Service :=
    { id := st.nextServiceId, name := d.name, description := d.description,
      price := d.price, workingHours := d.workingHours, companyId := d.companyId,
      createdAt := now, updatedAt := now }
  (s, { st with services := st.services ++ [s], nextServiceId := st.nextServiceId + 1 })

/-- Patch application for services (update .. set with updatedAt re-stamped). -/
def applyServicePatch (p : ServicePatch) (s : Service) (now : Nat) : Service :=
  { s with
    name := p.name.getD s.name
    description := p.description.getD s.description
    price := p.price.getD s.price
    workingHours := p.workingHours.getD s.workingHours
    companyId := p.companyId.getD s.companyId
    updatedAt := now }

/-- DatabaseStorage.updateService. -/
def updateService (st : Storage) (id : Nat) (p : ServicePatch) (now : Nat) :
    Option Service × Storage :=
  ((getService st id).map (fun s => applyServicePatch p s now),
   { st with services :=
      st.services.map (fun s => if s.id = id then applyServicePatch p s now else s) })

/-- DatabaseStorage.deleteService: delete images whose serviceId matches,
then delete the service row. -/
def deleteService (st : Storage) (id : Nat) : Storage :=
  { st with
    serviceImages := st.serviceImages.filter (fun i => ¬ (i.serviceId = id))
    services := st.services.filter (fun s => ¬ (s.id = id)) }

/-- DatabaseStorage.getServiceImages: select where serviceId = serviceId. -/
def getServiceImages (st : Storage) (serviceId : Nat) : List ServiceImage :=
  st.serviceImages.filter (fun i => i.serviceId == serviceId)

/-- DatabaseStorage.createServiceImage. -/
def createServiceImage (st : Storage) (d : InsertServiceImage) (now : Nat) :
    ServiceImage × Storage :=
  let i : ServiceImage :=
    { id := st.nextImageId, url := d.url, serviceId := d.serviceId, createdAt := now }
  (i, { st with serviceImages := st.serviceImages ++ [i], nextImageId := st.nextImageId + 1 })

/-- DatabaseStorage.deleteServiceImage: delete where id = id. -/
def deleteServiceImage (st : Storage) (id : Nat) : Storage :=
  { st with serviceImages := st.serviceImages.filter (fun i => ¬ (i.id = id)) }

/-- DatabaseStorage.getJobOffer. -/
def getJobOffer (st : Storage) (id : Nat) : Option JobOffer :=
  st.jobOffers.find? (fun j => j.id == id)

/-- DatabaseStorage.getCompanyJobOffers. -/
def getCompanyJobOffers (st : Storage) (companyId : Nat) : List JobOffer :=
  st.jobOffers.filter (fun j => j.companyId == companyId)

/-- DatabaseStorage.createJobOffer. -/
def createJobOffer (st : Storage) (d : InsertJobOffer) (now : Nat) : JobOffer × Storage :=
  let j : JobOffer :=
    { id := st.nextJobOfferId, title := d.title, description := d.description,
      employmentType := d.employmentType, salaryRange := d.salaryRange,
      requirements := d.requirements, contactEmail := d.contactEmail,
      contactLink := d.contactLink, companyId := d.companyId,
      createdAt := now, updatedAt := now }
  (j, { st with jobOffers := st.jobOffers ++ [j], nextJobOfferId := st.nextJobOfferId + 1 })

/-- Patch application for job offers (update .. set with updatedAt re-stamped). -/
def applyJobOfferPatch (p : JobOfferPatch) (j : JobOffer) (now : Nat) : JobOffer :=
  { j with
    title := p.title.getD j.title
    description := p.description.getD j.description
    employmentType := p.employmentType.getD j.employmentType
    salaryRange := p.salaryRange.getD j.salaryRange
    requirements := p.requirements.getD j.requirements
    contactEmail := p.contactEmail.getD j.contactEmail
    contactLink := p.contactLink.getD j.contactLink
    companyId := p.companyId.getD j.companyId
    updatedAt := now }

/-- DatabaseStorage.updateJobOffer. -/
def updateJobOffer (st : Storage) (id : Nat) (p : JobOfferPatch) (now : Nat) :
    Option JobOffer × Storage :=
  ((getJobOffer st id).map (fun j => applyJobOfferPatch p j now),
   { st with jobOffers :=
      st.jobOffers.map (fun j => if j.id = id then applyJobOfferPatch p j now else j) })

/-- DatabaseStorage.deleteJobOffer. -/
def deleteJobOffer (st : Storage) (id : Nat) : Storage :=
  { st with jobOffers := st.jobOffers.filter (fun j => ¬ (j.id = id)) }

end DB

/-- One zod issue: a field path and a message. -/
structure ZodIssue where
  path : String
  message : String
deriving DecidableEq

/-- Raw JSON body of a company create/update request: every key optional;
nullable columns carry an inner Option so an explicit null is `some none`.
The client may also send createdAt/updatedAt keys; the insert schemas omit
them, so the parsers below never read them. -/
structure CompanyBody where
  name : Option String := none
  description : Option String := none
  cnpj : Option (Option String) := none
  address : Option (Option String) := none
  phone : Option (Option String) := none
  website : Option (Option String) := none
  ownerId : Option Nat := none
  createdAt : Option Nat := none
  updatedAt : Option Nat := none
deriving DecidableEq

/-- Raw JSON body of a service create/update request. -/
structure ServiceBody where
  name : Option String := none
  description : Option String := none
  price : Option (Option String) := none
  workingHours : Option (Option String) := none
  companyId : Option Nat := none
  createdAt : Option Nat := none
  updatedAt : Option Nat := none
deriving DecidableEq

/-- Raw JSON body of an image attach request (the handler only reads url). -/
structure ImageBody where
  url : Option String := none
  createdAt : Option Nat := none
deriving DecidableEq

/-- Raw JSON body of a job offer create/update request. -/
structure JobOfferBody where
  title : Option String := none
  description : Option String := none
  employmentType : Option String := none
  salaryRange : Option (Option String) := none
  requirements : Option (Option String) := none
  contactEmail : Option (Option String) := none
  contactLink : Option (Option String) := none
  companyId : Option Nat := none
  createdAt : Option Nat := none
  updatedAt : Option Nat := none
deriving DecidableEq

/-- One "Required" issue for a missing field, empty list otherwise. -/
def requiredIssue (field : String) (missing : Bool) : List ZodIssue :=
  if missing then [⟨field, "Required"⟩] else []

/-- insertCompanySchema.safeParse: notNull columns are required, nullable
columns are optional, id/createdAt/updatedAt are omitted (stripped). -/
def insertCompanySafeParse (b : CompanyBody) : Except (List ZodIssue) InsertCompany :=
  match b.name, b.description, b.ownerId with
  | some n, some d, some o =>
      .ok { name := n, description := d,
            cnpj := b.cnpj.getD none, address := b.address.getD none,
            phone := b.phone.getD none, website := b.website.getD none,
            ownerId := o }
  | _, _, _ =>
      .error (requiredIssue "name" b.name.isNone ++
              requiredIssue "description" b.description.isNone ++
              requiredIssue "ownerId" b.ownerId.isNone)

/-- insertCompanySchema.partial().safeParse: all fields optional, so the
typed parse always succeeds; omitted keys (and the omitted timestamp keys)
are stripped. -/
def companyPatchParse (b : CompanyBody) : CompanyPatch :=
  { name := b.name, description := b.description, cnpj := b.cnpj,
    address := b.address, phone := b.phone, website := b.website,
    ownerId := b.ownerId }

/-- insertServiceSchema.safeParse (the handler has already forced companyId
from the path into the parsed object). -/
def insertServiceSafeParse (b : ServiceBody) : Except (List ZodIssue) InsertService :=
  match b.name, b.description, b.companyId with
  | some n, some d, some cid =>
      .ok { name := n, description := d,
            price := b.price.getD none, workingHours := b.workingHours.getD none,
            companyId := cid }
  | _, _, _ =>
      .error (requiredIssue "name" b.name.isNone ++
              requiredIssue "description" b.description.isNone ++
              requiredIssue "companyId" b.companyId.isNone)

/-- insertServiceSchema.partial().safeParse. -/
def servicePatchParse (b : ServiceBody) : ServicePatch :=
  { name := b.name, description := b.description, price := b.price,
    workingHours := b.workingHours, companyId := b.companyId }

/-- insertServiceImageSchema.safeParse on the object {serviceId, url} the
handler builds. -/
def insertServiceImageSafeParse (url : Option String) (serviceId : Nat) :
    Except (List ZodIssue) InsertServiceImage :=
  match url with
  | some u => .ok { url := u, serviceId := serviceId }
  | none => .error [⟨"url", "Required"⟩]

/-- insertJobOfferSchema.safeParse (companyId already forced from the path). -/
def insertJobOfferSafeParse (b : JobOfferBody) : Except (List ZodIssue) InsertJobOffer :=
  match b.title, b.description, b.employmentType, b.companyId with
  | some t, some d, some e, some cid =>
      .ok { title := t, description := d, employmentType := e,
            salaryRange := b.salaryRange.getD none,
            requirements := b.requirements.getD none,
            contactEmail := b.contactEmail.getD none,
            contactLink := b.contactLink.getD none,
            companyId := cid }
  | _, _, _, _ =>
      .error (requiredIssue "title" b.title.isNone ++
              requiredIssue "description" b.description.isNone ++
              requiredIssue "employmentType" b.employmentType.isNone ++
              requiredIssue "companyId" b.companyId.isNone)

/-- insertJobOfferSchema.partial().safeParse. -/
def jobOfferPatchParse (b : JobOfferBody) : JobOfferPatch :=
  { title := b.title, description := b.description,
    employmentType := b.employmentType, salaryRange := b.salaryRange,
    requirements := b.requirements, contactEmail := b.contactEmail,
    contactLink := b.contactLink, companyId := b.companyId }

/-- Response body shapes produced by the handlers. -/
inductive RespBody where
  | msg (m : String)
  | fieldErrors (m : String) (errors : List ZodIssue)
  | company (c : Company)
  | companyList (cs : List Company)
  | service (s : Service)
  | serviceWithImages (s : Service) (images : List String)
  | imagesOnly (images : List String)
  | serviceListWithImages (items : List (Service × List String))
  | image (i : ServiceImage)
  | jobOffer (j : JobOffer)
  | jobOfferList (js : List JobOffer)
  | success
  | undefinedBody
deriving DecidableEq

/-- An HTTP response: status code plus JSON body shape. -/
structure Resp where
  status : Nat
  body : RespBody
deriving DecidableEq

/-- One call on the storage object, logged in request order. -/
inductive Op where
  | getUserByUid (uid : String)
  | createUser
  | getUserCompanies (userId : Nat)
  | getCompany (id : Nat)
  | createCompany
  | updateCompany (id : Nat)
  | getService (id : Nat)
  | getCompanyServices (companyId : Nat)
  | createService
  | updateService (id : Nat)
  | deleteService (id : Nat)
  | getServiceImages (serviceId : Nat)
  | createServiceImage
  | deleteServiceImage (id : Nat)
  | getJobOffer (id : Nat)
  | getCompanyJobOffers (companyId : Nat)
  | createJobOffer
  | updateJobOffer (id : Nat)
  | deleteJobOffer (id : Nat)
deriving DecidableEq

/-- Whether a storage call creates, updates or deletes a record. -/
def Op.isWrite : Op → Bool
  | .createUser | .createCompany | .updateCompany _ | .createService
  | .updateService _ | .deleteService _ | .createServiceImage
  | .deleteServiceImage _ | .createJobOffer | .updateJobOffer _
  | .deleteJobOffer _ => true
  | _ => false

/-- req.user as set by the authenticate middleware from the verified token. -/
structure AuthUser where
  uid : String
  email : Option String
deriving DecidableEq

/-- A document of the identity provider profile store (getUserData result). -/
structure Profile where
  displayName : Option String
  photoURL : Option String
deriving DecidableEq

/-- A parsed request: req.user, the numeric path parameter (none models a
parseInt NaN), and the JSON body slots the handlers read. -/
structure Request where
  user : Option AuthUser := none
  idParam : Option Nat := none
  companyBody : CompanyBody := {}
  serviceBody : ServiceBody := {}
  imageBody : ImageBody := {}
  jobBody : JobOfferBody := {}
deriving DecidableEq

/-- JavaScript `x || null` on an optional string field. -/
def jsOrNull (o : Option String) : Option String :=
  match o with
  | some s => if s = "" then none else some s
  | none => none

/-- Result of getUserByFirebaseUid: either the early response it sent, or
the resolved user, with the updated state and the storage calls made. -/
structure ResolveResult where
  result : Sum Resp User
  st : Storage
  ops : List Op
deriving DecidableEq

/-- routes.ts getUserByFirebaseUid: 401 without req.user (or with a falsy
uid); otherwise look the uid up, and on a miss materialize a user from the
provider profile store, or answer 404 when that store has no document. -/
def getUserByFirebaseUid (ruser : Option AuthUser) (prov : String → Option Profile)
    (now : Nat) (st : Storage) : ResolveResult :=
  match ruser with
  | none => ⟨.inl ⟨401, .msg "Unauthorized"⟩, st, []⟩
  | some au =>
    if au.uid = "" then ⟨.inl ⟨401, .msg "Unauthorized"⟩, st, []⟩
    else
      match DB.getUserByUid st au.uid with
      | some u => ⟨.inr u, st, [.getUserByUid au.uid]⟩
      | none =>
        match prov au.uid with
        | none => ⟨.inl ⟨404, .msg "User not found"⟩, st, [.getUserByUid au.uid]⟩
        | some p =>
          let r := DB.createUser st
            { uid := au.uid, email := au.email.getD "",
              displayName := jsOrNull p.displayName,
              photoURL := jsOrNull p.photoURL } now
          ⟨.inr r.1, r.2, [.getUserByUid au.uid, .createUser]⟩

/-- The repeated ownership block: resolve the caller, then compare
company.ownerId with dbUser.id, denying with the route 403 message.
When resolution already responded (401/404), that first response stands. -/
def checkOwner (c : Company) (ruser : Option AuthUser) (prov : String → Option Profile)
    (now : Nat) (st : Storage) (denyMsg : String) : ResolveResult :=
  match getUserByFirebaseUid ruser prov now st with
  | ⟨.inl r, st', ops⟩ => ⟨.inl r, st', ops⟩
  | ⟨.inr u, st', ops⟩ =>
      if c.ownerId = u.id then ⟨.inr u, st', ops⟩
      else ⟨.inl ⟨403, .msg denyMsg⟩, st', ops⟩

/-- Outcome of one handler run: response, final storage, storage-call trace. -/
structure HResult where
  resp : Resp
  st : Storage
  ops : List Op
deriving DecidableEq

/-- The routes of routes.ts that take an entity or a parent id (plus the two
company collection routes). -/
inductive RouteTag where
  | getCompanies
  | postCompanies
  | getCompany
  | putCompany
  | getCompanyServices
  | postService
  | getService
  | putService
  | deleteService
  | postServiceImage
  | deleteServiceImage
  | getCompanyJobOffers
  | postJobOffer
  | getJobOffer
  | putJobOffer
  | deleteJobOffer
deriving DecidableEq

/-- Whether the route path carries a numeric id segment. -/
def RouteTag.hasIdSegment : RouteTag → Bool
  | .getCompanies | .postCompanies => false
  | _ => true

/-- The literal message of the 400 answered for a NaN path parameter
(meaningless for the two routes without an id segment). -/
def invalidIdMsg : RouteTag → String
  | .getCompany | .putCompany | .getCompanyServices | .postService
  | .getCompanyJobOffers | .postJobOffer => "Invalid company ID"
  | .getService | .putService | .deleteService | .postServiceImage => "Invalid service ID"
  | .deleteServiceImage => "Invalid image ID"
  | .getJobOffer | .putJobOffer | .deleteJobOffer => "Invalid job offer ID"
  | .getCompanies | .postCompanies => ""

/-- The route handlers of routes.ts, one match arm per handler, each a
line-by-line translation of the Express handler body over the relational
DatabaseStorage. `prov` is the identity provider profile store and `now`
the server clock. -/
def route (tag : RouteTag) (req : Request) (prov : String → Option Profile)
    (now : Nat) (st : Storage) : HResult :=
  match tag with
  | .getCompanies =>
    match getUserByFirebaseUid req.user prov now st with
    | ⟨.inl r, st', ops⟩ => ⟨r, st', ops⟩
    | ⟨.inr u, st', ops⟩ =>
        ⟨⟨200, .companyList (DB.getUserCompanies st' u.id)⟩, st',
          ops ++ [.getUserCompanies u.id]⟩
  | .postCompanies =>
    match insertCompanySafeParse req.companyBody with
    | .error errs => ⟨⟨400, .fieldErrors "Invalid company data" errs⟩, st, []⟩
    | .ok data =>
      match getUserByFirebaseUid req.user prov now st with
      | ⟨.inl r, st', ops⟩ => ⟨r, st', ops⟩
      | ⟨.inr u, st', ops⟩ =>
        if (DB.getUserCompanies st' u.id).length > 0 then
          ⟨⟨400, .msg "User already has a company"⟩, st',
            ops ++ [.getUserCompanies u.id]⟩
        else
          let r := DB.createCompany st' { data with ownerId := u.id } now
          ⟨⟨201, .company r.1⟩, r.2,
            ops ++ [.getUserCompanies u.id, .createCompany]⟩
  | .getCompany =>
    match req.idParam with
    | none => ⟨⟨400, .msg "Invalid company ID"⟩, st, []⟩
    | some companyId =>
      match DB.getCompany st companyId with
      | none => ⟨⟨404, .msg "Company not found"⟩, st, [.getCompany companyId]⟩
      | some company =>
        match checkOwner company req.user prov now st
            "Not authorized to view this company" with
        | ⟨.inl r, st', ops⟩ => ⟨r, st', .getCompany companyId :: ops⟩
        | ⟨.inr _, st', ops⟩ =>
            ⟨⟨200, .company company⟩, st', .getCompany companyId :: ops⟩
  | .putCompany =>
    match req.idParam with
    | none => ⟨⟨400, .msg "Invalid company ID"⟩, st, []⟩
    | some companyId =>
      match DB.getCompany st companyId with
      | none => ⟨⟨404, .msg "Company not found"⟩, st, [.getCompany companyId]⟩
      | some company =>
        match checkOwner company req.user prov now st
            "Not authorized to update this company" with
        | ⟨.inl r, st', ops⟩ => ⟨r, st', .getCompany companyId :: ops⟩
        | ⟨.inr _, st', ops⟩ =>
          let r := DB.updateCompany st' companyId (companyPatchParse req.companyBody) now
          ⟨⟨200, match r.1 with | some c => .company c | none => .undefinedBody⟩, r.2,
            .getCompany companyId :: ops ++ [.updateCompany companyId]⟩
  | .getCompanyServices =>
    match req.idParam with
    | none => ⟨⟨400, .msg "Invalid company ID"⟩, st, []⟩
    | some companyId =>
      match DB.getCompany st companyId with
      | none => ⟨⟨404, .msg "Company not found"⟩, st, [.getCompany companyId]⟩
      | some company =>
        match checkOwner company req.user prov now st
            "Not authorized to view services for this company" with
        | ⟨.inl r, st', ops⟩ => ⟨r, st', .getCompany companyId :: ops⟩
        | ⟨.inr _, st', ops⟩ =>
          let services := DB.getCompanyServices st' companyId
          ⟨⟨200, .serviceListWithImages (services.map (fun s =>
              (s, (DB.getServiceImages st' s.id).map (fun i => i.url))))⟩, st',
            .getCompany companyId :: ops ++ .getCompanyServices companyId ::
              services.map (fun s => .getServiceImages s.id)⟩
  | .postService =>
    match req.idParam with
    | none => ⟨⟨400, .msg "Invalid company ID"⟩, st, []⟩
    | some companyId =>
      match DB.getCompany st companyId with
      | none => ⟨⟨404, .msg "Company not found"⟩, st, [.getCompany companyId]⟩
      | some company =>
        match checkOwner company req.user prov now st
            "Not authorized to create services for this company" with
        | ⟨.inl r, st', ops⟩ => ⟨r, st', .getCompany companyId :: ops⟩
        | ⟨.inr _, st', ops⟩ =>
          match insertServiceSafeParse { req.serviceBody with companyId := some companyId } with
          | .error errs =>
              ⟨⟨400, .fieldErrors "Invalid service data" errs⟩, st',
                .getCompany companyId :: ops⟩
          | .ok data =>
              let r := DB.createService st' data now
              ⟨⟨201, .service r.1⟩, r.2,
                .getCompany companyId :: ops ++ [.createService]⟩
  | .getService =>
    match req.idParam with
    | none => ⟨⟨400, .msg "Invalid service ID"⟩, st, []⟩
    | some serviceId =>
      match DB.getService st serviceId with
      | none => ⟨⟨404, .msg "Service not found"⟩, st, [.getService serviceId]⟩
      | some service =>
        match DB.getCompany st service.companyId with
        | none =>
            ⟨⟨404, .msg "Company not found"⟩, st,
              [.getService serviceId, .getCompany service.companyId]⟩
        | some company =>
          match checkOwner company req.user prov now st
              "Not authorized to view this service" with
          | ⟨.inl r, st', ops⟩ =>
              ⟨r, st', .getService serviceId :: .getCompany service.companyId :: ops⟩
          | ⟨.inr _, st', ops⟩ =>
              ⟨⟨200, .serviceWithImages service
                  ((DB.getServiceImages st' serviceId).map (fun i => i.url))⟩, st',
                .getService serviceId :: .getCompany service.companyId :: ops ++
                  [.getServiceImages serviceId]⟩
  | .putService =>
    match req.idParam with
    | none => ⟨⟨400, .msg "Invalid service ID"⟩, st, []⟩
    | some serviceId =>
      match DB.getService st serviceId with
      | none => ⟨⟨404, .msg "Service not found"⟩, st, [.getService serviceId]⟩
      | some service =>
        match DB.getCompany st service.companyId with
        | none =>
            ⟨⟨404, .msg "Company not found"⟩, st,
              [.getService serviceId, .getCompany service.companyId]⟩
        | some company =>
          match checkOwner company req.user prov now st
              "Not authorized to update this service" with
          | ⟨.inl r, st', ops⟩ =>
              ⟨r, st', .getService serviceId :: .getCompany service.companyId :: ops⟩
          | ⟨.inr _, st', ops⟩ =>
            let r := DB.updateService st' serviceId (servicePatchParse req.serviceBody) now
            let images := (DB.getServiceImages r.2 serviceId).map (fun i => i.url)
            ⟨⟨200, match r.1 with
                | some s => .serviceWithImages s images
                | none => .imagesOnly images⟩, r.2,
              .getService serviceId :: .getCompany service.companyId :: ops ++
                [.updateService serviceId, .getServiceImages serviceId]⟩
  | .deleteService =>
    match req.idParam with
    | none => ⟨⟨400, .msg "Invalid service ID"⟩, st, []⟩
    | some serviceId =>
      match DB.getService st serviceId with
      | none => ⟨⟨404, .msg "Service not found"⟩, st, [.getService serviceId]⟩
      | some service =>
        match DB.getCompany st service.companyId with
        | none =>
            ⟨⟨404, .msg "Company not found"⟩, st,
              [.getService serviceId, .getCompany service.companyId]⟩
        | some company =>
          match checkOwner company req.user prov now st
              "Not authorized to delete this service" with
          | ⟨.inl r, st', ops⟩ =>
              ⟨r, st', .getService serviceId :: .getCompany service.companyId :: ops⟩
          | ⟨.inr _, st', ops⟩ =>
              ⟨⟨200, .success⟩, DB.deleteService st' serviceId,
                .getService serviceId :: .getCompany service.companyId :: ops ++
                  [.deleteService serviceId]⟩
  | .postServiceImage =>
    match req.idParam with
    | none => ⟨⟨400, .msg "Invalid service ID"⟩, st, []⟩
    | some serviceId =>
      match DB.getService st serviceId with
      | none => ⟨⟨404, .msg "Service not found"⟩, st, [.getService serviceId]⟩
      | some service =>
        match DB.getCompany st service.companyId with
        | none =>
            ⟨⟨404, .msg "Company not found"⟩, st,
              [.getService serviceId, .getCompany service.companyId]⟩
        | some company =>
          match checkOwner company req.user prov now st
              "Not authorized to add images to this service" with
          | ⟨.inl r, st', ops⟩ =>
              ⟨r, st', .getService serviceId :: .getCompany service.companyId :: ops⟩
          | ⟨.inr _, st', ops⟩ =>
            match insertServiceImageSafeParse req.imageBody.url serviceId with
            | .error errs =>
                ⟨⟨400, .fieldErrors "Invalid image data" errs⟩, st',
                  .getService serviceId :: .getCompany service.companyId :: ops⟩
            | .ok data =>
                let r := DB.createServiceImage st' data now
                ⟨⟨201, .image r.1⟩, r.2,
                  .getService serviceId :: .getCompany service.companyId :: ops ++
                    [.createServiceImage]⟩
  | .deleteServiceImage =>
    match req.idParam with
    | none => ⟨⟨400, .msg "Invalid image ID"⟩, st, []⟩
    | some imageId =>
      match DB.getServiceImages st imageId with
      | [] => ⟨⟨404, .msg "Image not found"⟩, st, [.getServiceImages imageId]⟩
      | image :: _ =>
        match DB.getService st image.serviceId with
        | none =>
            ⟨⟨404, .msg "Service not found"⟩, st,
              [.getServiceImages imageId, .getService image.serviceId]⟩
        | some service =>
          match DB.getCompany st service.companyId with
          | none =>
              ⟨⟨404, .msg "Company not found"⟩, st,
                [.getServiceImages imageId, .getService image.serviceId,
                  .getCompany service.companyId]⟩
          | some company =>
            match checkOwner company req.user prov now st
                "Not authorized to delete this image" with
            | ⟨.inl r, st', ops⟩ =>
                ⟨r, st', .getServiceImages imageId :: .getService image.serviceId ::
                  .getCompany service.companyId :: ops⟩
            | ⟨.inr _, st', ops⟩ =>
                ⟨⟨200, .success⟩, DB.deleteServiceImage st' imageId,
                  .getServiceImages imageId :: .getService image.serviceId ::
                    .getCompany service.companyId :: ops ++ [.deleteServiceImage imageId]⟩
  | .getCompanyJobOffers =>
    match req.idParam with
    | none => ⟨⟨400, .msg "Invalid company ID"⟩, st, []⟩
    | some companyId =>
      match DB.getCompany st companyId with
      | none => ⟨⟨404, .msg "Company not found"⟩, st, [.getCompany companyId]⟩
      | some company =>
        match checkOwner company req.user prov now st
            "Not authorized to view job offers for this company" with
        | ⟨.inl r, st', ops⟩ => ⟨r, st', .getCompany companyId :: ops⟩
        | ⟨.inr _, st', ops⟩ =>
            ⟨⟨200, .jobOfferList (DB.getCompanyJobOffers st' companyId)⟩, st',
              .getCompany companyId :: ops ++ [.getCompanyJobOffers companyId]⟩
  | .postJobOffer =>
    match req.idParam with
    | none => ⟨⟨400, .msg "Invalid company ID"⟩, st, []⟩
    | some companyId =>
      match DB.getCompany st companyId with
      | none => ⟨⟨404, .msg "Company not found"⟩, st, [.getCompany companyId]⟩
      | some company =>
        match checkOwner company req.user prov now st
            "Not authorized to create job offers for this company" with
        | ⟨.inl r, st', ops⟩ => ⟨r, st', .getCompany companyId :: ops⟩
        | ⟨.inr _, st', ops⟩ =>
          match insertJobOfferSafeParse { req.jobBody with companyId := some companyId } with
          | .error errs =>
              ⟨⟨400, .fieldErrors "Invalid job offer data" errs⟩, st',
                .getCompany companyId :: ops⟩
          | .ok data =>
              let r := DB.createJobOffer st' data now
              ⟨⟨201, .jobOffer r.1⟩, r.2,
                .getCompany companyId :: ops ++ [.createJobOffer]⟩
  | .getJobOffer =>
    match req.idParam with
    | none => ⟨⟨400, .msg "Invalid job offer ID"⟩, st, []⟩
    | some jobOfferId =>
      match DB.getJobOffer st jobOfferId with
      | none => ⟨⟨404, .msg "Job offer not found"⟩, st, [.getJobOffer jobOfferId]⟩
      | some jobOffer =>
        match DB.getCompany st jobOffer.companyId with
        | none =>
            ⟨⟨404, .msg "Company not found"⟩, st,
              [.getJobOffer jobOfferId, .getCompany jobOffer.companyId]⟩
        | some company =>
          match checkOwner company req.user prov now st
              "Not authorized to view this job offer" with
          | ⟨.inl r, st', ops⟩ =>
              ⟨r, st', .getJobOffer jobOfferId :: .getCompany jobOffer.companyId :: ops⟩
          | ⟨.inr _, st', ops⟩ =>
              ⟨⟨200, .jobOffer jobOffer⟩, st',
                .getJobOffer jobOfferId :: .getCompany jobOffer.companyId :: ops⟩
  | .putJobOffer =>
    match req.idParam with
    | none => ⟨⟨400, .msg "Invalid job offer ID"⟩, st, []⟩
    | some jobOfferId =>
      match DB.getJobOffer st jobOfferId with
      | none => ⟨⟨404, .msg "Job offer not found"⟩, st, [.getJobOffer jobOfferId]⟩
      | some jobOffer =>
        match DB.getCompany st jobOffer.companyId with
        | none =>
            ⟨⟨404, .msg "Company not found"⟩, st,
              [.getJobOffer jobOfferId, .getCompany jobOffer.companyId]⟩
        | some company =>
          match checkOwner company req.user prov now st
              "Not authorized to update this job offer" with
          | ⟨.inl r, st', ops⟩ =>
              ⟨r, st', .getJobOffer jobOfferId :: .getCompany jobOffer.companyId :: ops⟩
          | ⟨.inr _, st', ops⟩ =>
            let r := DB.updateJobOffer st' jobOfferId (jobOfferPatchParse req.jobBody) now
            ⟨⟨200, match r.1 with | some j => .jobOffer j | none => .undefinedBody⟩, r.2,
              .getJobOffer jobOfferId :: .getCompany jobOffer.companyId :: ops ++
                [.updateJobOffer jobOfferId]⟩
  | .deleteJobOffer =>
    match req.idParam with
    | none => ⟨⟨400, .msg "Invalid job offer ID"⟩, st, []⟩
    | some jobOfferId =>
      match DB.getJobOffer st jobOfferId with
      | none => ⟨⟨404, .msg "Job offer not found"⟩, st, [.getJobOffer jobOfferId]⟩
      | some jobOffer =>
        match DB.getCompany st jobOffer.companyId with
        | none =>
            ⟨⟨404, .msg "Company not found"⟩, st,
              [.getJobOffer jobOfferId, .getCompany jobOffer.companyId]⟩
        | some company =>
          match checkOwner company req.user prov now st
              "Not authorized to delete this job offer" with
          | ⟨.inl r, st', ops⟩ =>
              ⟨r, st', .getJobOffer jobOfferId :: .getCompany jobOffer.companyId :: ops⟩
          | ⟨.inr _, st', ops⟩ =>
              ⟨⟨200, .success⟩, DB.deleteJobOffer st' jobOfferId,
                .getJobOffer jobOfferId :: .getCompany jobOffer.companyId :: ops ++
                  [.deleteJobOffer jobOfferId]⟩

/-- Drop the createdAt/updatedAt keys of a company body. -/
def CompanyBody.stripTs (b : CompanyBody) : CompanyBody :=
  { b with createdAt := none, updatedAt := none }

/-- Drop the createdAt/updatedAt keys of a service body. -/
def ServiceBody.stripTs (b : ServiceBody) : ServiceBody :=
  { b with createdAt := none, updatedAt := none }

/-- Drop the createdAt key of an image body. -/
def ImageBody.stripTs (b : ImageBody) : ImageBody :=
  { b with createdAt := none }

/-- Drop the createdAt/updatedAt keys of a job offer body. -/
def JobOfferBody.stripTs (b : JobOfferBody) : JobOfferBody :=
  { b with createdAt := none, updatedAt := none }

/-- A request with all client-supplied timestamp keys dropped; two requests
with the same stripTs differ at most in body timestamp fields. -/
def Request.stripTs (r : Request) : Request :=
  { r with
    companyBody := r.companyBody.stripTs
    serviceBody := r.serviceBody.stripTs
    imageBody := r.imageBody.stripTs
    jobBody := r.jobBody.stripTs }

/-- The routes whose path id addresses a Company directly. -/
def companyAddressedTags : List RouteTag :=
  [.getCompany, .putCompany, .getCompanyServices, .postService,
   .getCompanyJobOffers, .postJobOffer]

/-- The routes whose path id addresses a Service. -/
def serviceAddressedTags : List RouteTag :=
  [.getService, .putService, .deleteService, .postServiceImage]

/-- The routes whose path id addresses a JobOffer. -/
def jobOfferAddressedTags : List RouteTag :=
  [.getJobOffer, .putJobOffer, .deleteJobOffer]

/-- A provider profile store with no documents. -/
def provNone : String → Option Profile := fun _ => none

/-- Concrete fixture: user 1 (uid u1) owns company 1 with service 7
(image 5) and job offer 1; user 2 (uid u2) owns company 2 with service 9
(image 7). The image ids were chosen so that image 7 and service 7 collide. -/
def sampleSt : Storage :=
  { users := [⟨1, "u1", "a", none, none, 0, 0⟩, ⟨2, "u2", "b", none, none, 0, 0⟩],
    companies := [⟨1, "C1", "d", none, none, none, none, 1, 0, 0⟩,
                  ⟨2, "C2", "d", none, none, none, none, 2, 0, 0⟩],
    services := [⟨7, "S1", "d", none, none, 1, 0, 0⟩, ⟨9, "S2", "d", none, none, 2, 0, 0⟩],
    serviceImages := [⟨5, "http://a", 7, 0⟩, ⟨7, "http://b", 9, 0⟩],
    jobOffers := [⟨1, "J", "d", "full", none, none, none, none, 1, 0, 0⟩],
    nextUserId := 3, nextCompanyId := 3, nextServiceId := 10, nextImageId := 8,
    nextJobOfferId := 2 }

/-- A provider profile store answering every uid with a profile whose
displayName is the empty string (a falsy value) and whose photo is set. -/
def provP : String → Option Profile := fun _ => some ⟨some "", some "http://p"⟩

/-- Helper: a handler result does not depend on the client-supplied
createdAt/updatedAt body keys, because every parser strips them. -/
theorem route_stripTs_invariant (tag : RouteTag) (req : Request)
    (prov : String → Option Profile) (now : Nat) (st : Storage) :
    route tag (Request.stripTs req) prov now st = route tag req prov now st := by
  cases tag <;> rfl

/-- Claim C9: on every route whose path carries a numeric id segment, a path
parameter that does not parse as an integer (parseInt NaN) yields 400 with
the route's Invalid ... ID message, before any storage operation, leaving
storage unchanged. -/
theorem C9_invalid_id_400 (tag : RouteTag) (req : Request)
    (prov : String → Option Profile) (now : Nat) (st : Storage)
    (htag : tag.hasIdSegment = true) (hid : req.idParam = none) :
    route tag req prov now st = ⟨⟨400, .msg (invalidIdMsg tag)⟩, st, []⟩ := by
  cases tag <;> simp_all [route, RouteTag.hasIdSegment, invalidIdMsg]

/-- Claim C9 witness: GET /api/companies/:id with a NaN id on a concrete
store answers 400 Invalid company ID with an empty storage trace. -/
theorem C9_witness :
    RouteTag.hasIdSegment .getCompany = true ∧
    route .getCompany ⟨some ⟨"u1", some "a"⟩, none, {}, {}, {}, {}⟩ provNone 5 sampleSt =
      ⟨⟨400, .msg "Invalid company ID"⟩, sampleSt, []⟩ :=
  ⟨rfl, C9_invalid_id_400 .getCompany ⟨some ⟨"u1", some "a"⟩, none, {}, {}, {}, {}⟩
    provNone 5 sampleSt rfl rfl⟩

/-- Claim C2: DatabaseStorage.deleteService removes every ServiceImage row
whose serviceId is the deleted id: afterwards the image list of that service
is empty, the service itself is gone, and (given distinct image ids, as a
primary key guarantees) a lookup of any of those image ids finds nothing. -/
theorem C2_deleteService_cascades (st : Storage) (sid : Nat)
    (huniq : ∀ a ∈ st.serviceImages, ∀ b ∈ st.serviceImages, a.id = b.id → a = b) :
    DB.getServiceImages (DB.deleteService st sid) sid = [] ∧
    DB.getService (DB.deleteService st sid) sid = none ∧
    ∀ img ∈ st.serviceImages, img.serviceId = sid →
      (DB.deleteService st sid).serviceImages.find? (fun x => x.id == img.id) = none := by
  refine ⟨?_, ?_, ?_⟩
  · simp only [DB.getServiceImages, DB.deleteService]
    rw [List.filter_eq_nil_iff]
    intro a ha
    have h2 := (List.mem_filter.mp ha).2
    simp at h2 ⊢
    exact h2
  · simp only [DB.getService, DB.deleteService]
    rw [List.find?_eq_none]
    intro x hx
    have h2 := (List.mem_filter.mp hx).2
    simp at h2 ⊢
    exact h2
  · intro img hmem hsid
    simp only [DB.deleteService]
    rw [List.find?_eq_none]
    intro x hx
    have hx1 := (List.mem_filter.mp hx).1
    have hx2 := (List.mem_filter.mp hx).2
    simp at hx2 ⊢
    intro hid
    exact hx2 (by rw [huniq x hx1 img hmem hid, hsid])

/-- Claim C2 witness: deleting service 7 of the sample store empties its
image list, removes the service, and image id 5 is no longer found. -/
theorem C2_witness :
    (∀ a ∈ sampleSt.serviceImages, ∀ b ∈ sampleSt.serviceImages, a.id = b.id → a = b) ∧
    DB.getServiceImages (DB.deleteService sampleSt 7) 7 = [] ∧
    DB.getService (DB.deleteService sampleSt 7) 7 = none ∧
    (DB.deleteService sampleSt 7).serviceImages.find? (fun x => x.id == 5) = none := by
  have h := C2_deleteService_cascades sampleSt 7 (by decide)
  exact ⟨by decide, h.1, h.2.1, h.2.2 ⟨5, "http://a", 7, 0⟩ (by decide) rfl⟩

/-- Claim C3: a POST /api/companies by a caller whose resolved user already
owns a company answers 400 and leaves storage entirely unchanged, for every
request body (an invalid body also answers 400 without touching storage). -/
theorem C3_second_company_rejected (au : AuthUser) (u : User) (req : Request)
    (prov : String → Option Profile) (now : Nat) (st : Storage)
    (hreq : req.user = some au) (hau : au.uid ≠ "")
    (huid : DB.getUserByUid st au.uid = some u)
    (hcs : DB.getUserCompanies st u.id ≠ []) :
    (route .postCompanies req prov now st).resp.status = 400 ∧
    (route .postCompanies req prov now st).st = st := by
  have hlen : (DB.getUserCompanies st u.id).length > 0 := List.length_pos.mpr hcs
  cases hparse : insertCompanySafeParse req.companyBody with
  | error errs => simp [route, hparse]
  | ok data =>
    simp [route, hparse, getUserByFirebaseUid, hreq, hau, huid, hlen]

/-- Claim C3 witness: user u1 of the sample store already owns company 1;
a second creation attempt with a valid body answers 400 and changes nothing. -/
theorem C3_witness :
    DB.getUserCompanies sampleSt 1 ≠ [] ∧
    (route .postCompanies
      ⟨some ⟨"u1", some "a"⟩, none,
        { name := some "X", description := some "Y", ownerId := some 1 }, {}, {}, {}⟩
      provNone 9 sampleSt).resp.status = 400 ∧
    (route .postCompanies
      ⟨some ⟨"u1", some "a"⟩, none,
        { name := some "X", description := some "Y", ownerId := some 1 }, {}, {}, {}⟩
      provNone 9 sampleSt).st = sampleSt := by
  have h := C3_second_company_rejected ⟨"u1", some "a"⟩ ⟨1, "u1", "a", none, none, 0, 0⟩
    ⟨some ⟨"u1", some "a"⟩, none,
      { name := some "X", description := some "Y", ownerId := some 1 }, {}, {}, {}⟩
    provNone 9 sampleSt rfl (by decide) (by decide) (by decide)
  exact ⟨by decide, h.1, h.2⟩

/-- Claim C5 counterexample: for a subject id with no local record and no
provider profile document, getUserByFirebaseUid answers 404 User not found
and creates nothing (the users table stays empty), contradicting the claim
that a local record is still created with null fields. -/
theorem C5_counterexample :
    getUserByFirebaseUid (some ⟨"u9", some "e"⟩) provNone 3
        { sampleSt with users := [] } =
      ⟨.inl ⟨404, .msg "User not found"⟩, { sampleSt with users := [] },
        [.getUserByUid "u9"]⟩ ∧
    ({ sampleSt with users := [] } : Storage).users = [] := by
  decide

/-- Claim C5 amended: when the subject id has no local record, a profile
document in the provider store yields a new local user carrying its
displayName/photoURL (empty strings coerced to null); when the provider has
no document either, no record is created and the response is 404. -/
theorem C5_user_resolution (au : AuthUser) (prov : String → Option Profile)
    (now : Nat) (st : Storage) (hau : au.uid ≠ "")
    (hmiss : DB.getUserByUid st au.uid = none) :
    (∀ p, prov au.uid = some p →
      getUserByFirebaseUid (some au) prov now st =
        ⟨.inr ⟨st.nextUserId, au.uid, au.email.getD "", jsOrNull p.displayName,
               jsOrNull p.photoURL, now, now⟩,
         { st with
            users := st.users ++ [⟨st.nextUserId, au.uid, au.email.getD "",
              jsOrNull p.displayName, jsOrNull p.photoURL, now, now⟩]
            nextUserId := st.nextUserId + 1 },
         [.getUserByUid au.uid, .createUser]⟩) ∧
    (prov au.uid = none →
      getUserByFirebaseUid (some au) prov now st =
        ⟨.inl ⟨404, .msg "User not found"⟩, st, [.getUserByUid au.uid]⟩) := by
  constructor
  · intro p hp
    simp [getUserByFirebaseUid, hau, hmiss, hp, DB.createUser]
  · intro hp
    simp [getUserByFirebaseUid, hau, hmiss, hp]

/-- Claim C5 witness: a first sight of uid u9 with a provider profile whose
displayName is the falsy empty string materializes user 3 with a null
displayName; without a provider document the store is left unchanged. -/
theorem C5_witness :
    getUserByFirebaseUid (some ⟨"u9", some "e"⟩) provP 3 sampleSt =
      ⟨.inr ⟨3, "u9", "e", none, some "http://p", 3, 3⟩,
       { sampleSt with
          users := sampleSt.users ++ [⟨3, "u9", "e", none, some "http://p", 3, 3⟩]
          nextUserId := 4 },
       [.getUserByUid "u9", .createUser]⟩ ∧
    getUserByFirebaseUid (some ⟨"u9", some "e"⟩) provNone 3 sampleSt =
      ⟨.inl ⟨404, .msg "User not found"⟩, sampleSt, [.getUserByUid "u9"]⟩ :=
  ⟨(C5_user_resolution ⟨"u9", some "e"⟩ provP 3 sampleSt (by decide) (by decide)).1
      ⟨some "", some "http://p"⟩ rfl,
   (C5_user_resolution ⟨"u9", some "e"⟩ provNone 3 sampleSt (by decide) (by decide)).2 rfl⟩

/-- Claim C8: a PUT /api/job-offers/:id whose body holds only salaryRange,
by the owner, returns the stored offer with only salaryRange and updatedAt
changed, rewrites exactly that row in the job offers table, and leaves every
other table untouched. -/
theorem C8_partial_put_frame (au : AuthUser) (u : User) (j : JobOffer) (c : Company)
    (req : Request) (prov : String → Option Profile) (now : Nat) (st : Storage)
    (v : String)
    (hreq : req.user = some au) (hid : req.idParam = some j.id)
    (hbody : req.jobBody = { salaryRange := some (some v) })
    (hau : au.uid ≠ "") (huid : DB.getUserByUid st au.uid = some u)
    (hj : DB.getJobOffer st j.id = some j)
    (hc : DB.getCompany st j.companyId = some c)
    (hown : c.ownerId = u.id) :
    route .putJobOffer req prov now st =
      ⟨⟨200, .jobOffer { j with salaryRange := some v, updatedAt := now }⟩,
       { st with jobOffers := st.jobOffers.map (fun x =>
           if x.id = j.id then { x with salaryRange := some v, updatedAt := now } else x) },
       [.getJobOffer j.id, .getCompany j.companyId, .getUserByUid au.uid,
        .updateJobOffer j.id]⟩ := by
  simp [route, hid, hj, hc, checkOwner, getUserByFirebaseUid, hreq, hau, huid, hown,
    DB.updateJobOffer, hbody, jobOfferPatchParse, DB.applyJobOfferPatch]

/-- Claim C8 witness: patching job offer 1 of the sample store with only a
salary range keeps title, description, employmentType, companyId and
createdAt, and re-stamps updatedAt to the server clock 42. -/
theorem C8_witness :
    route .putJobOffer
      ⟨some ⟨"u1", some "a"⟩, some 1, {}, {}, {},
        { salaryRange := some (some "2000-2500") }⟩ provNone 42 sampleSt =
      ⟨⟨200, .jobOffer ⟨1, "J", "d", "full", some "2000-2500", none, none, none, 1, 0, 42⟩⟩,
       { sampleSt with jobOffers := sampleSt.jobOffers.map (fun x =>
           if x.id = 1 then { x with salaryRange := some "2000-2500", updatedAt := 42 }
           else x) },
       [.getJobOffer 1, .getCompany 1, .getUserByUid "u1", .updateJobOffer 1]⟩ :=
  C8_partial_put_frame ⟨"u1", some "a"⟩ ⟨1, "u1", "a", none, none, 0, 0⟩
    ⟨1, "J", "d", "full", none, none, none, none, 1, 0, 0⟩
    ⟨1, "C1", "d", none, none, none, none, 1, 0, 0⟩
    ⟨some ⟨"u1", some "a"⟩, some 1, {}, {}, {},
      { salaryRange := some (some "2000-2500") }⟩ provNone 42 sampleSt "2000-2500"
    rfl rfl rfl (by decide) (by decide) (by decide) (by decide) rfl

/-- Claim C7: handler results are invariant under the client-supplied
createdAt/updatedAt body keys (two requests equal after stripping them give
identical responses, states and traces), and every storage create/update
stamps the record with the server clock argument: creates set createdAt and
updatedAt to now, updates re-stamp updatedAt to now. -/
theorem C7_timestamps_server_assigned :
    (∀ (tag : RouteTag) (r1 r2 : Request) (prov : String → Option Profile)
       (now : Nat) (st : Storage), Request.stripTs r1 = Request.stripTs r2 →
       route tag r1 prov now st = route tag r2 prov now st) ∧
    (∀ (st : Storage) (d : InsertCompany) (now : Nat),
       (DB.createCompany st d now).1.createdAt = now ∧
       (DB.createCompany st d now).1.updatedAt = now) ∧
    (∀ (st : Storage) (d : InsertService) (now : Nat),
       (DB.createService st d now).1.createdAt = now ∧
       (DB.createService st d now).1.updatedAt = now) ∧
    (∀ (st : Storage) (d : InsertServiceImage) (now : Nat),
       (DB.createServiceImage st d now).1.createdAt = now) ∧
    (∀ (st : Storage) (d : InsertJobOffer) (now : Nat),
       (DB.createJobOffer st d now).1.createdAt = now ∧
       (DB.createJobOffer st d now).1.updatedAt = now) ∧
    (∀ (st : Storage) (id : Nat) (p : CompanyPatch) (now : Nat) (c : Company),
       (DB.updateCompany st id p now).1 = some c → c.updatedAt = now) ∧
    (∀ (st : Storage) (id : Nat) (p : ServicePatch) (now : Nat) (s : Service),
       (DB.updateService st id p now).1 = some s → s.updatedAt = now) ∧
    (∀ (st : Storage) (id : Nat) (p : JobOfferPatch) (now : Nat) (j : JobOffer),
       (DB.updateJobOffer st id p now).1 = some j → j.updatedAt = now) := by
  refine ⟨?_, ?_, ?_, ?_, ?_, ?_, ?_, ?_⟩
  · intro tag r1 r2 prov now st h
    rw [← route_stripTs_invariant tag r1, h, route_stripTs_invariant]
  · intro st d now; exact ⟨rfl, rfl⟩
  · intro st d now; exact ⟨rfl, rfl⟩
  · intro st d now; exact rfl
  · intro st d now; exact ⟨rfl, rfl⟩
  · intro st id p now c h
    simp only [DB.updateCompany, Option.map_eq_some'] at h
    obtain ⟨a, _, rfl⟩ := h
    rfl
  · intro st id p now s h
    simp only [DB.updateService, Option.map_eq_some'] at h
    obtain ⟨a, _, rfl⟩ := h
    rfl
  · intro st id p now j h
    simp only [DB.updateJobOffer, Option.map_eq_some'] at h
    obtain ⟨a, _, rfl⟩ := h
    rfl

/-- Claim C7 witness: two company creation requests differing only in body
createdAt/updatedAt values (111/none versus none/222) produce identical
results on the sample store, and a concrete create is stamped with the
server clock 7. -/
theorem C7_witness :
    Request.stripTs ⟨none, none,
        { name := some "X"
          description := some "Y"
          ownerId := some 1
          createdAt := some 111 }, {}, {}, {}⟩ =
      Request.stripTs ⟨none, none,
        { name := some "X"
          description := some "Y"
          ownerId := some 1
          updatedAt := some 222 }, {}, {}, {}⟩ ∧
    route .postCompanies ⟨none, none,
        { name := some "X"
          description := some "Y"
          ownerId := some 1
          createdAt := some 111 }, {}, {}, {}⟩ provNone 7 sampleSt =
      route .postCompanies ⟨none, none,
        { name := some "X"
          description := some "Y"
          ownerId := some 1
          updatedAt := some 222 }, {}, {}, {}⟩ provNone 7 sampleSt ∧
    (DB.createCompany sampleSt ⟨"X", "Y", none, none, none, none, 1⟩ 7).1.createdAt = 7 ∧
    (DB.createCompany sampleSt ⟨"X", "Y", none, none, none, none, 1⟩ 7).1.updatedAt = 7 :=
  ⟨by decide,
   C7_timestamps_server_assigned.1 .postCompanies
     ⟨none, none,
       { name := some "X"
         description := some "Y"
         ownerId := some 1
         createdAt := some 111 }, {}, {}, {}⟩
     ⟨none, none,
       { name := some "X"
         description := some "Y"
         ownerId := some 1
         updatedAt := some 222 }, {}, {}, {}⟩ provNone 7 sampleSt (by decide),
   (C7_timestamps_server_assigned.2.1 sampleSt ⟨"X", "Y", none, none, none, none, 1⟩ 7).1,
   (C7_timestamps_server_assigned.2.1 sampleSt ⟨"X", "Y", none, none, none, none, 1⟩ 7).2⟩

/-- Claim C1 counterexample: in the sample store image 7 belongs, through
service 9 and company 2, to user 2; yet user 1 sends
DELETE /api/service-images/7 and gets 200 with image 7 removed from storage,
because the handler resolves the image by filtering on serviceId = 7 and so
walks user 1 own chain (image 5, service 7, company 1) for the ownership
check. -/
theorem C1_counterexample :
    (route .deleteServiceImage ⟨some ⟨"u1", some "a"⟩, some 7, {}, {}, {}, {}⟩
        provNone 1 sampleSt).resp.status = 200 ∧
    (route .deleteServiceImage ⟨some ⟨"u1", some "a"⟩, some 7, {}, {}, {}, {}⟩
        provNone 1 sampleSt).st.serviceImages = [⟨5, "http://a", 7, 0⟩] ∧
    sampleSt.serviceImages.find? (fun i => i.id == 7) = some ⟨7, "http://b", 9, 0⟩ ∧
    DB.getService sampleSt 9 = some ⟨9, "S2", "d", none, none, 2, 0, 0⟩ ∧
    DB.getCompany sampleSt 2 = some ⟨2, "C2", "d", none, none, none, none, 2, 0, 0⟩ ∧
    DB.getUserByUid sampleSt "u1" = some ⟨1, "u1", "a", none, none, 0, 0⟩ ∧
    (2 : Nat) ≠ 1 := by
  decide

/-- Claim C1 amended: every mutating route except DELETE
/api/service-images/:id answers 403 with the route's denial message and
leaves storage unchanged when the resolved caller is not the owner of the
addressed company (or of the parent company of the addressed service or job
offer), for every request body; the image-delete route instead resolves the
image by treating the path id as a serviceId and can delete a non-owned
image. -/
theorem C1_nonowner_mutations_403 (au : AuthUser) (u : User) (c : Company)
    (s : Service) (j : JobOffer)
    (prov : String → Option Profile) (now : Nat) (st : Storage)
    (cb : CompanyBody) (sb : ServiceBody) (ib : ImageBody) (jb : JobOfferBody)
    (hau : au.uid ≠ "") (huid : DB.getUserByUid st au.uid = some u)
    (hc : DB.getCompany st c.id = some c) (hown : c.ownerId ≠ u.id)
    (hs : DB.getService st s.id = some s) (hsc : s.companyId = c.id)
    (hj : DB.getJobOffer st j.id = some j) (hjc : j.companyId = c.id) :
    route .putCompany ⟨some au, some c.id, cb, sb, ib, jb⟩ prov now st =
      ⟨⟨403, .msg "Not authorized to update this company"⟩, st,
        [.getCompany c.id, .getUserByUid au.uid]⟩ ∧
    route .postService ⟨some au, some c.id, cb, sb, ib, jb⟩ prov now st =
      ⟨⟨403, .msg "Not authorized to create services for this company"⟩, st,
        [.getCompany c.id, .getUserByUid au.uid]⟩ ∧
    route .postJobOffer ⟨some au, some c.id, cb, sb, ib, jb⟩ prov now st =
      ⟨⟨403, .msg "Not authorized to create job offers for this company"⟩, st,
        [.getCompany c.id, .getUserByUid au.uid]⟩ ∧
    route .putService ⟨some au, some s.id, cb, sb, ib, jb⟩ prov now st =
      ⟨⟨403, .msg "Not authorized to update this service"⟩, st,
        [.getService s.id, .getCompany c.id, .getUserByUid au.uid]⟩ ∧
    route .deleteService ⟨some au, some s.id, cb, sb, ib, jb⟩ prov now st =
      ⟨⟨403, .msg "Not authorized to delete this service"⟩, st,
        [.getService s.id, .getCompany c.id, .getUserByUid au.uid]⟩ ∧
    route .postServiceImage ⟨some au, some s.id, cb, sb, ib, jb⟩ prov now st =
      ⟨⟨403, .msg "Not authorized to add images to this service"⟩, st,
        [.getService s.id, .getCompany c.id, .getUserByUid au.uid]⟩ ∧
    route .putJobOffer ⟨some au, some j.id, cb, sb, ib, jb⟩ prov now st =
      ⟨⟨403, .msg "Not authorized to update this job offer"⟩, st,
        [.getJobOffer j.id, .getCompany c.id, .getUserByUid au.uid]⟩ ∧
    route .deleteJobOffer ⟨some au, some j.id, cb, sb, ib, jb⟩ prov now st =
      ⟨⟨403, .msg "Not authorized to delete this job offer"⟩, st,
        [.getJobOffer j.id, .getCompany c.id, .getUserByUid au.uid]⟩ := by
  refine ⟨?_, ?_, ?_, ?_, ?_, ?_, ?_, ?_⟩ <;>
    simp [route, checkOwner, getUserByFirebaseUid, hau, huid, hc, hown, hs, hsc, hj, hjc]

/-- Claim C1 witness: user u2 (id 2) is not the owner of company 1 in the
sample store; a PUT on company 1 and a DELETE on its service 7 both answer
403 and leave the store unchanged. -/
theorem C1_witness :
    route .putCompany ⟨some ⟨"u2", some "b"⟩, some 1, {}, {}, {}, {}⟩
        provNone 4 sampleSt =
      ⟨⟨403, .msg "Not authorized to update this company"⟩, sampleSt,
        [.getCompany 1, .getUserByUid "u2"]⟩ ∧
    route .deleteService ⟨some ⟨"u2", some "b"⟩, some 7, {}, {}, {}, {}⟩
        provNone 4 sampleSt =
      ⟨⟨403, .msg "Not authorized to delete this service"⟩, sampleSt,
        [.getService 7, .getCompany 1, .getUserByUid "u2"]⟩ := by
  have h := C1_nonowner_mutations_403 ⟨"u2", some "b"⟩ ⟨2, "u2", "b", none, none, 0, 0⟩
    ⟨1, "C1", "d", none, none, none, none, 1, 0, 0⟩ ⟨7, "S1", "d", none, none, 1, 0, 0⟩
    ⟨1, "J", "d", "full", none, none, none, none, 1, 0, 0⟩
    provNone 4 sampleSt {} {} {} {}
    (by decide) (by decide) (by decide) (by decide) (by decide) rfl (by decide) rfl
  exact ⟨h.1, h.2.2.2.2.1⟩

/-- Claim C4 counterexample: no image with id 9 exists in the sample store,
yet DELETE /api/service-images/9 by user u1 answers 403: the handler filters
images by serviceId = 9, finds the image of service 9, and walks that chain
to company 2, whose owner differs from the caller — a 403 for a missing
resource. -/
theorem C4_counterexample :
    (sampleSt.serviceImages.find? (fun i => i.id == 9) = none) ∧
    (route .deleteServiceImage ⟨some ⟨"u1", some "a"⟩, some 9, {}, {}, {}, {}⟩
        provNone 1 sampleSt).resp.status = 403 := by
  decide

/-- Claim C4 amended: every resource-addressing handler except DELETE
/api/service-images/:id performs the two-stage check — 404 when the
addressed resource or its owning company is missing, and 403 exactly when
both exist and the company's ownerId differs from the resolved caller's id;
the image-delete handler keys its existence walk on images whose serviceId
equals the path id, so it can answer 403 for a missing image id (and 404
for an existing one). -/
theorem C4_two_stage_check (au : AuthUser) (u : User)
    (prov : String → Option Profile) (now : Nat) (st : Storage)
    (cb : CompanyBody) (sb : ServiceBody) (ib : ImageBody) (jb : JobOfferBody)
    (hau : au.uid ≠ "") (huid : DB.getUserByUid st au.uid = some u) :
    (∀ tag ∈ companyAddressedTags, ∀ cid, DB.getCompany st cid = none →
      (route tag ⟨some au, some cid, cb, sb, ib, jb⟩ prov now st).resp.status = 404) ∧
    (∀ tag ∈ companyAddressedTags, ∀ c : Company, DB.getCompany st c.id = some c →
      c.ownerId ≠ u.id →
      (route tag ⟨some au, some c.id, cb, sb, ib, jb⟩ prov now st).resp.status = 403) ∧
    (∀ tag ∈ serviceAddressedTags, ∀ sid, DB.getService st sid = none →
      (route tag ⟨some au, some sid, cb, sb, ib, jb⟩ prov now st).resp.status = 404) ∧
    (∀ tag ∈ serviceAddressedTags, ∀ s : Service, DB.getService st s.id = some s →
      DB.getCompany st s.companyId = none →
      (route tag ⟨some au, some s.id, cb, sb, ib, jb⟩ prov now st).resp.status = 404) ∧
    (∀ tag ∈ serviceAddressedTags, ∀ s : Service, ∀ c : Company,
      DB.getService st s.id = some s → DB.getCompany st s.companyId = some c →
      c.ownerId ≠ u.id →
      (route tag ⟨some au, some s.id, cb, sb, ib, jb⟩ prov now st).resp.status = 403) ∧
    (∀ tag ∈ jobOfferAddressedTags, ∀ jid, DB.getJobOffer st jid = none →
      (route tag ⟨some au, some jid, cb, sb, ib, jb⟩ prov now st).resp.status = 404) ∧
    (∀ tag ∈ jobOfferAddressedTags, ∀ j : JobOffer, DB.getJobOffer st j.id = some j →
      DB.getCompany st j.companyId = none →
      (route tag ⟨some au, some j.id, cb, sb, ib, jb⟩ prov now st).resp.status = 404) ∧
    (∀ tag ∈ jobOfferAddressedTags, ∀ j : JobOffer, ∀ c : Company,
      DB.getJobOffer st j.id = some j → DB.getCompany st j.companyId = some c →
      c.ownerId ≠ u.id →
      (route tag ⟨some au, some j.id, cb, sb, ib, jb⟩ prov now st).resp.status = 403) := by
  refine ⟨?_, ?_, ?_, ?_, ?_, ?_, ?_, ?_⟩
  · intro tag htag cid hmiss
    fin_cases htag <;> simp [route, hmiss]
  · intro tag htag c hcsome hown
    fin_cases htag <;>
      simp [route, hcsome, checkOwner, getUserByFirebaseUid, hau, huid, hown]
  · intro tag htag sid hmiss
    fin_cases htag <;> simp [route, hmiss]
  · intro tag htag s hssome hcmiss
    fin_cases htag <;> simp [route, hssome, hcmiss]
  · intro tag htag s c hssome hcsome hown
    fin_cases htag <;>
      simp [route, hssome, hcsome, checkOwner, getUserByFirebaseUid, hau, huid, hown]
  · intro tag htag jid hmiss
    fin_cases htag <;> simp [route, hmiss]
  · intro tag htag j hjsome hcmiss
    fin_cases htag <;> simp [route, hjsome, hcmiss]
  · intro tag htag j c hjsome hcsome hown
    fin_cases htag <;>
      simp [route, hjsome, hcsome, checkOwner, getUserByFirebaseUid, hau, huid, hown]

/-- Claim C4 witness: in the sample store, GET on missing company 99 answers
404, while PUT on service 7 (which exists, with existing company 1 owned by
user 1) by caller u2 answers 403. -/
theorem C4_witness :
    RouteTag.getCompany ∈ companyAddressedTags ∧
    RouteTag.putService ∈ serviceAddressedTags ∧
    DB.getCompany sampleSt 99 = none ∧
    (route .getCompany ⟨some ⟨"u2", some "b"⟩, some 99, {}, {}, {}, {}⟩
        provNone 1 sampleSt).resp.status = 404 ∧
    (route .putService ⟨some ⟨"u2", some "b"⟩, some 7, {}, {}, {}, {}⟩
        provNone 1 sampleSt).resp.status = 403 := by
  have h := C4_two_stage_check ⟨"u2", some "b"⟩ ⟨2, "u2", "b", none, none, 0, 0⟩
    provNone 1 sampleSt {} {} {} {} (by decide) (by decide)
  exact ⟨by decide, by decide, by decide,
    h.1 .getCompany (by decide) 99 (by decide),
    h.2.2.2.2.1 .putService (by decide) ⟨7, "S1", "d", none, none, 1, 0, 0⟩
      ⟨1, "C1", "d", none, none, none, none, 1, 0, 0⟩ (by decide) (by decide) (by decide)⟩

/-- Claim C6 counterexample: a POST /api/companies/:companyId/services with
an empty body by the owner of company 1 answers 400 with the structured
field-error list, but only after the handler has already read storage (the
company lookup and the user lookup appear in the trace), contradicting the
no-storage-access part of the claim. -/
theorem C6_counterexample :
    (route .postService ⟨some ⟨"u1", some "a"⟩, some 1, {}, {}, {}, {}⟩
        provNone 1 sampleSt).resp =
      ⟨400, .fieldErrors "Invalid service data"
        [⟨"name", "Required"⟩, ⟨"description", "Required"⟩]⟩ ∧
    (route .postService ⟨some ⟨"u1", some "a"⟩, some 1, {}, {}, {}, {}⟩
        provNone 1 sampleSt).ops = [.getCompany 1, .getUserByUid "u1"] ∧
    ([Op.getCompany 1, Op.getUserByUid "u1"] ≠ ([] : List Op)) := by
  decide

/-- Claim C6 amended: a schema failure always produces a 400 carrying the
structured list of field-level zod issues, with no storage write and no
state change; POST /api/companies validates before any storage access (empty
trace), while the other create handlers validate only after the existence
and ownership reads. -/
theorem C6_validation_errors (au : AuthUser) (u : User)
    (prov : String → Option Profile) (now : Nat) (st : Storage)
    (hau : au.uid ≠ "") (huid : DB.getUserByUid st au.uid = some u) :
    (∀ (req : Request) (errs : List ZodIssue),
      insertCompanySafeParse req.companyBody = .error errs →
      route .postCompanies req prov now st =
        ⟨⟨400, .fieldErrors "Invalid company data" errs⟩, st, []⟩) ∧
    (∀ (c : Company) (cb : CompanyBody) (sb : ServiceBody) (ib : ImageBody)
       (jb : JobOfferBody) (errs : List ZodIssue),
      DB.getCompany st c.id = some c → c.ownerId = u.id →
      insertServiceSafeParse { sb with companyId := some c.id } = .error errs →
      route .postService ⟨some au, some c.id, cb, sb, ib, jb⟩ prov now st =
        ⟨⟨400, .fieldErrors "Invalid service data" errs⟩, st,
          [.getCompany c.id, .getUserByUid au.uid]⟩) ∧
    (∀ (s : Service) (c : Company) (cb : CompanyBody) (sb : ServiceBody)
       (jb : JobOfferBody),
      DB.getService st s.id = some s → DB.getCompany st s.companyId = some c →
      c.ownerId = u.id →
      route .postServiceImage ⟨some au, some s.id, cb, sb, ⟨none, none⟩, jb⟩ prov now st =
        ⟨⟨400, .fieldErrors "Invalid image data" [⟨"url", "Required"⟩]⟩, st,
          [.getService s.id, .getCompany s.companyId, .getUserByUid au.uid]⟩) ∧
    (∀ (c : Company) (cb : CompanyBody) (sb : ServiceBody) (ib : ImageBody)
       (jb : JobOfferBody) (errs : List ZodIssue),
      DB.getCompany st c.id = some c → c.ownerId = u.id →
      insertJobOfferSafeParse { jb with companyId := some c.id } = .error errs →
      route .postJobOffer ⟨some au, some c.id, cb, sb, ib, jb⟩ prov now st =
        ⟨⟨400, .fieldErrors "Invalid job offer data" errs⟩, st,
          [.getCompany c.id, .getUserByUid au.uid]⟩) := by
  refine ⟨?_, ?_, ?_, ?_⟩
  · intro req errs hparse
    simp [route, hparse]
  · intro c cb sb ib jb errs hcsome hown hparse
    simp [route, hcsome, checkOwner, getUserByFirebaseUid, hau, huid, hown, hparse]
  · intro s c cb sb jb hssome hcsome hown
    simp [route, hssome, hcsome, checkOwner, getUserByFirebaseUid, hau, huid, hown,
      insertServiceImageSafeParse]
  · intro c cb sb ib jb errs hcsome hown hparse
    simp [route, hcsome, checkOwner, getUserByFirebaseUid, hau, huid, hown, hparse]

/-- Claim C6 witness: an empty service body fails the schema with two
Required issues, and the create-service handler answers 400 carrying them,
with only the two prior reads in the trace and the store unchanged. -/
theorem C6_witness :
    insertServiceSafeParse { ({} : ServiceBody) with companyId := some 1 } =
      .error [⟨"name", "Required"⟩, ⟨"description", "Required"⟩] ∧
    route .postService ⟨some ⟨"u1", some "a"⟩, some 1, {}, {}, {}, {}⟩
        provNone 1 sampleSt =
      ⟨⟨400, .fieldErrors "Invalid service data"
          [⟨"name", "Required"⟩, ⟨"description", "Required"⟩]⟩, sampleSt,
        [.getCompany 1, .getUserByUid "u1"]⟩ := by
  have h := C6_validation_errors ⟨"u1", some "a"⟩ ⟨1, "u1", "a", none, none, 0, 0⟩
    provNone 1 sampleSt (by decide) (by decide)
  exact ⟨rfl,
    h.2.1 ⟨1, "C1", "d", none, none, none, none, 1, 0, 0⟩ {} {} {} {}
      [⟨"name", "Required"⟩, ⟨"description", "Required"⟩]
      (by decide) (by decide) rfl⟩

/-- Claim C10: evaluation at the failing input — image id 5 exists in the
sample store, but DELETE /api/service-images/5 answers 404 Image not found
because the handler fetches images by serviceId = 5 (storage has no
get-image-by-id call) instead of looking the image itself up, so the
existence check and ownership walk never start from image 5. -/
theorem C10_image_lookup_bug_eval :
    (sampleSt.serviceImages.find? (fun i => i.id == 5) = some ⟨5, "http://a", 7, 0⟩) ∧
    route .deleteServiceImage ⟨some ⟨"u1", some "a"⟩, some 5, {}, {}, {}, {}⟩
        provNone 1 sampleSt =
      ⟨⟨404, .msg "Image not found"⟩, sampleSt, [.getServiceImages 5]⟩ := by
  decide

end RBG
